import Mathlib

/-!
Shallow embedding of the Real-Time-Audio-Visualizer core
(`src/AudioAnalyzer.ts`, `src/VisualizerEngine.ts`, `PerformanceLOD`,
`DeviceCapabilities`), with theorems settling the specification claims.

Conventions of the embedding:
* JS numbers are modelled as `ℚ` where only field arithmetic occurs, and as
  `ℝ` where `Math.sqrt` / `Math.sin` / `Math.acos` are involved.
* `Uint8Array` spectral buffers are modelled as `List ℚ`; an out-of-range
  read never happens in the modelled loops (the source guards `i <
  this.frequencyData.length`), and in-range reads use `List.getD`.
* `Math.random()` draws are passed in as explicit parameters, with the
  hypothesis `0 ≤ r < 1` where a claim needs it.
-/

namespace AudioAnalyzer

/-- `AudioAnalyzer.calculateBandLevel` (src/AudioAnalyzer.ts:356-366).
The source sums `frequencyData[i]` for `i` from `start` while
`i < end && i < frequencyData.length`, i.e. over the index range
`[start, min end length)`, then returns `count > 0 ? (sum/count)/255 : 0`
with `count = end - start`. -/
def calculateBandLevel (data : List ℚ) (start stop : ℕ) : ℚ :=
  let loopSum : ℚ :=
    (((List.range (min stop data.length)).drop start).map
      (fun i => data.getD i 0)).sum
  if start < stop then (loopSum / ((stop : ℚ) - (start : ℚ))) / 255 else 0

/-- The computable part of `calculateOverallLevel`: the mean of the squared
samples, `sum / this.frequencyData.length` after the loop
`sum += this.frequencyData[i] * this.frequencyData[i]`. -/
def overallMeanSquare (data : List ℚ) : ℚ :=
  (data.map (fun x => x * x)).sum / (data.length : ℚ)

/-- `AudioAnalyzer.calculateOverallLevel` (src/AudioAnalyzer.ts:371-379):
`Math.sqrt(sum / this.frequencyData.length) / 255`. -/
noncomputable def calculateOverallLevel (data : List ℚ) : ℝ :=
  Real.sqrt ((overallMeanSquare data : ℚ) : ℝ) / 255

end AudioAnalyzer

namespace PerformanceLOD

/-- `LODLevel` (src/unnamed PerformanceLOD module, lines 6-13). -/
structure LODLevel where
  name : String
  particleCount : ℕ
  geometrySegments : ℕ
  enableComplexShaders : Bool
  enablePostProcessing : Bool
  targetFPS : ℚ
deriving DecidableEq

/-- The five LOD levels from lowest to highest quality, as defined in the
`PerformanceLOD` constructor (lines 33-74). -/
def lodLevels : List LODLevel :=
  [⟨"Potato", 100, 8, false, false, 30⟩,
   ⟨"Low", 300, 16, false, false, 45⟩,
   ⟨"Medium", 600, 24, true, false, 55⟩,
   ⟨"High", 1000, 32, true, true, 58⟩,
   ⟨"Ultra", 2000, 48, true, true, 60⟩]

/-- Mutable state of a `PerformanceLOD` instance.  The source stores
`currentLOD` as an object reference into `lodLevels` and recovers its index
with `indexOf`; since the five levels are pairwise distinct records, the
state is modelled by the index itself, together with the fps history. -/
structure State where
  currentIndex : ℕ
  performanceHistory : List ℚ
deriving DecidableEq

/-- The level record the current index refers to (total via `getD`; the
index is always `< 5` for reachable states). -/
def currentLOD (s : State) : LODLevel :=
  lodLevels.getD s.currentIndex ⟨"Potato", 100, 8, false, false, 30⟩

/-- `PerformanceLOD.evaluateLODChange` (lines 124-147): mean fps over the
last 30 samples (`slice(-30)`), step the index down when
`avgFPS < targetFPS - 5` and not already lowest, up when
`avgFPS > targetFPS + 3` and not already highest. -/
def evaluateLODChange (s : State) : State :=
  let recentFPS := s.performanceHistory.drop (s.performanceHistory.length - 30)
  let avgFPS := recentFPS.sum / (recentFPS.length : ℚ)
  let currentIndex := s.currentIndex
  let newLODIndex :=
    if avgFPS < (currentLOD s).targetFPS - 5 ∧ 0 < currentIndex then
      currentIndex - 1
    else if (currentLOD s).targetFPS + 3 < avgFPS ∧ currentIndex < lodLevels.length - 1 then
      currentIndex + 1
    else currentIndex
  { s with currentIndex := newLODIndex }

/-- `PerformanceLOD.updatePerformance` (lines 83-94): push the fps sample,
evict the oldest sample when the history exceeds `maxHistoryLength = 60`,
and evaluate a LOD change only once at least 30 samples are held. -/
def updatePerformance (s : State) (fps : ℚ) : State :=
  let hist0 := s.performanceHistory ++ [fps]
  let hist := if 60 < hist0.length then hist0.drop 1 else hist0
  let s' : State := { s with performanceHistory := hist }
  if 30 ≤ hist.length then evaluateLODChange s' else s'

end PerformanceLOD

namespace DeviceCapabilities

/-- GPU tier estimate, `low | medium | high` in the source. -/
inductive GpuTier where
  | low
  | medium
  | high
deriving DecidableEq

/-- `DeviceInfo` (DeviceCapabilities module, lines 6-16). -/
structure DeviceInfo where
  isMobile : Bool
  isTablet : Bool
  isLowEnd : Bool
  hasWebGL2 : Bool
  hasHighDPI : Bool
  maxTextureSize : ℕ
  gpuTier : GpuTier
  memoryGB : ℚ
  cores : ℕ
deriving DecidableEq

/-- `QualitySettings` (lines 18-26). -/
structure QualitySettings where
  particleCount : ℕ
  geometrySegments : ℕ
  enableComplexShaders : Bool
  enablePostProcessing : Bool
  shadowMapSize : ℕ
  maxAnisotropy : ℕ
  pixelRatio : ℚ
deriving DecidableEq

/-- The `isLowEnd` computation of `detectDeviceInfo` (lines 73-77):
`(isMobile && cores <= 2 && memoryGB <= 2) || gpuTier === low ||
maxTextureSize < 4096`. -/
def computeIsLowEnd (isMobile : Bool) (cores : ℕ) (memoryGB : ℚ)
    (gpuTier : GpuTier) (maxTextureSize : ℕ) : Bool :=
  (isMobile && decide (cores ≤ 2) && decide (memoryGB ≤ 2)) ||
    decide (gpuTier = GpuTier.low) || decide (maxTextureSize < 4096)

/-- `detectDeviceInfo` (lines 40-89), as a function of the environment
signals it reads (user agent flags, `hardwareConcurrency`, `deviceMemory`,
WebGL parameters, `devicePixelRatio > 1.5`). -/
def detectDeviceInfo (isMobile isTablet hasWebGL2 hasHighDPI : Bool)
    (maxTextureSize : ℕ) (gpuTier : GpuTier) (memoryGB : ℚ) (cores : ℕ) :
    DeviceInfo :=
  { isMobile := isMobile
    isTablet := isTablet
    isLowEnd := computeIsLowEnd isMobile cores memoryGB gpuTier maxTextureSize
    hasWebGL2 := hasWebGL2
    hasHighDPI := hasHighDPI
    maxTextureSize := maxTextureSize
    gpuTier := gpuTier
    memoryGB := memoryGB
    cores := cores }

/-- The low-end tier returned for `isLowEnd` devices (lines 97-107). -/
def lowEndSettings : QualitySettings :=
  ⟨200, 8, false, false, 512, 1, 1⟩

/-- The mobile (not low-end) tier (lines 109-119): pixel ratio 2 only on
high-DPI screens, else 1. -/
def mobileSettings (hasHighDPI : Bool) : QualitySettings :=
  ⟨500, 16, false, false, 1024, 2, if hasHighDPI then 2 else 1⟩

/-- The high-GPU tier (lines 121-131). -/
def highSettings (devicePixelRatio : ℚ) : QualitySettings :=
  ⟨2000, 64, true, true, 2048, 16, min devicePixelRatio 2⟩

/-- The default medium tier (lines 133-142). -/
def mediumSettings (devicePixelRatio : ℚ) : QualitySettings :=
  ⟨1000, 32, true, false, 1024, 4, min devicePixelRatio 2⟩

/-- `determineQualitySettings` (lines 94-143): the top-to-bottom decision
table over the detected `DeviceInfo` (plus `window.devicePixelRatio`, read
inside the high/medium branches). -/
def determineQualitySettings (info : DeviceInfo) (devicePixelRatio : ℚ) :
    QualitySettings :=
  if info.isLowEnd then lowEndSettings
  else if info.isMobile then mobileSettings info.hasHighDPI
  else if info.gpuTier = GpuTier.high then highSettings devicePixelRatio
  else mediumSettings devicePixelRatio

end DeviceCapabilities

namespace VisualizerEngine

/-- The per-vertex displacement scalar of `updateGeometryMorphing`
(src/VisualizerEngine.ts:348-397): a region term selected by
`normalizedIndex = vertexIndex / (positionArray.length / 3)` with
thresholds 0.33 / 0.66, plus the time ripple
`Math.sin(time * 2 + vertexIndex * 0.1) * overallLevel * 0.1`. -/
noncomputable def morphDisplacement (bassLevel midLevel trebleLevel
    overallLevel morphingIntensity time : ℝ) (vertexIndex totalVertices : ℕ) : ℝ :=
  let bassIntensity := bassLevel * morphingIntensity
  let midIntensity := midLevel * morphingIntensity
  let trebleIntensity := trebleLevel * morphingIntensity
  let normalizedIndex := (vertexIndex : ℝ) / (totalVertices : ℝ)
  let regionBase : ℝ :=
    if normalizedIndex < 0.33 then 1 + bassIntensity * 0.5
    else if normalizedIndex < 0.66 then 1 + midIntensity * 0.3
    else 1 + trebleIntensity * 0.4
  regionBase + Real.sin (time * 2 + (vertexIndex : ℝ) * 0.1) * overallLevel * 0.1

/-- The per-vertex write of `updateGeometryMorphing`:
`vertex.copy(originalVertex).multiplyScalar(displacement)`. -/
noncomputable def morphVertex (bassLevel midLevel trebleLevel overallLevel
    morphingIntensity time : ℝ) (vertexIndex totalVertices : ℕ)
    (basePos : ℝ × ℝ × ℝ) : ℝ × ℝ × ℝ :=
  let d := morphDisplacement bassLevel midLevel trebleLevel overallLevel
    morphingIntensity time vertexIndex totalVertices
  (basePos.1 * d, basePos.2.1 * d, basePos.2.2 * d)

/-- Modelled from the claimed specification of the ripple term (for the
refinement comparison only): displacement
`1 + regionTerm + sin(2*elapsed + u*10) * overall * 0.1` with
`u = vertexIndex / totalVertices`. -/
noncomputable def morphDisplacementClaim (bassLevel midLevel trebleLevel
    overallLevel morphingIntensity time : ℝ) (vertexIndex totalVertices : ℕ) : ℝ :=
  let u := (vertexIndex : ℝ) / (totalVertices : ℝ)
  let regionTerm : ℝ :=
    if u < 0.33 then bassLevel * morphingIntensity * 0.5
    else if u < 0.66 then midLevel * morphingIntensity * 0.3
    else trebleLevel * morphingIntensity * 0.4
  1 + regionTerm + Real.sin (2 * time + u * 10) * overallLevel * 0.1

/-- Per-particle state: position and velocity triples, stored in the
`positionArray` and `particleVelocities` buffers at indices `i3..i3+2`. -/
structure Particle where
  px : ℝ
  py : ℝ
  pz : ℝ
  vx : ℝ
  vy : ℝ
  vz : ℝ

/-- The `Math.random()` draws one iteration of the particle loop can
consume: three jitter draws and the teleport draws (radius, theta, phi). -/
structure ParticleRand where
  j1 : ℝ
  j2 : ℝ
  j3 : ℝ
  rRad : ℝ
  rTheta : ℝ
  rPhi : ℝ

/-- Radial distance from the origin as the source computes it:
`Math.sqrt(x*x + y*y + z*z)` (src/VisualizerEngine.ts:459-463). -/
noncomputable def dist3 (q : ℝ × ℝ × ℝ) : ℝ :=
  Real.sqrt (q.1 * q.1 + q.2.1 * q.2.1 + q.2.2 * q.2.2)

/-- Velocity after the audio-reactive jitter and the `*= 0.99` damping
(src/VisualizerEngine.ts:443-451). -/
def newVelocity (overallLevel deltaTime : ℝ) (r : ParticleRand)
    (p : Particle) : ℝ × ℝ × ℝ :=
  let audioForce := overallLevel * 0.1
  ((p.vx + (r.j1 - 0.5) * audioForce * deltaTime) * 0.99,
   (p.vy + (r.j2 - 0.5) * audioForce * deltaTime) * 0.99,
   (p.vz + (r.j3 - 0.5) * audioForce * deltaTime) * 0.99)

/-- Position after the Euler step `positionArray[i3] += velocity`
(src/VisualizerEngine.ts:453-456). -/
def integratedPos (overallLevel deltaTime : ℝ) (r : ParticleRand)
    (p : Particle) : ℝ × ℝ × ℝ :=
  let v := newVelocity overallLevel deltaTime r p
  (p.px + v.1, p.py + v.2.1, p.pz + v.2.2)

/-- The per-particle body of `updateParticleSystem`
(src/VisualizerEngine.ts:439-475): jitter, damping, integration, then the
`distance > 8` boundary teleport onto a sphere of radius `3 + random()`. -/
noncomputable def updateParticle (overallLevel deltaTime : ℝ)
    (r : ParticleRand) (p : Particle) : Particle :=
  let v := newVelocity overallLevel deltaTime r p
  let q := integratedPos overallLevel deltaTime r p
  if 8 < dist3 q then
    let resetRadius := 3 + r.rRad
    let theta := r.rTheta * Real.pi * 2
    let phi := Real.arccos (2 * r.rPhi - 1)
    { px := resetRadius * Real.sin phi * Real.cos theta
      py := resetRadius * Real.sin phi * Real.sin theta
      pz := resetRadius * Real.cos phi
      vx := v.1, vy := v.2.1, vz := v.2.2 }
  else
    { px := q.1, py := q.2.1, pz := q.2.2, vx := v.1, vy := v.2.1, vz := v.2.2 }

/-- The particle loop over the whole buffer (one update pass). -/
noncomputable def updateParticleSystem (overallLevel deltaTime : ℝ)
    (particles : List (Particle × ParticleRand)) : List Particle :=
  particles.map (fun pr => updateParticle overallLevel deltaTime pr.2 pr.1)

/-- Position triple of a particle. -/
def pos (p : Particle) : ℝ × ℝ × ℝ := (p.px, p.py, p.pz)

/-- Velocity triple of a particle. -/
def vel (p : Particle) : ℝ × ℝ × ℝ := (p.vx, p.vy, p.vz)

/-- `VisualizerConfig` (src/VisualizerEngine.ts:12-18). -/
structure VisualizerConfig where
  geometrySegments : ℕ
  particleCount : ℕ
  morphingIntensity : ℚ
  colorSaturation : ℚ
  enableWireframe : Bool
deriving DecidableEq

/-- `Partial<VisualizerConfig>`: each field optionally present. -/
structure PartialVisualizerConfig where
  geometrySegments : Option ℕ
  particleCount : Option ℕ
  morphingIntensity : Option ℚ
  colorSaturation : Option ℚ
  enableWireframe : Option Bool

/-- The shallow spread `{ ...this.config, ...newConfig }`: a present field
of `newConfig` overrides, an absent one keeps the old value. -/
def mergeConfig (c : VisualizerConfig) (n : PartialVisualizerConfig) :
    VisualizerConfig :=
  { geometrySegments := n.geometrySegments.getD c.geometrySegments
    particleCount := n.particleCount.getD c.particleCount
    morphingIntensity := n.morphingIntensity.getD c.morphingIntensity
    colorSaturation := n.colorSaturation.getD c.colorSaturation
    enableWireframe := n.enableWireframe.getD c.enableWireframe }

/-- The engine state relevant to buffer lifecycle: the current config and
the allocated sizes of the particle buffers and of the captured base
vertices (`originalVertices`). -/
structure EngineState where
  config : VisualizerConfig
  particlePositionsLen : ℕ
  particleVelocitiesLen : ℕ
  originalVerticesLen : ℕ
deriving DecidableEq

/-- Construction (src/VisualizerEngine.ts:61-97 with `setupMainGeometry`
158 and `setupParticleSystem` 182-183): the particle buffers are allocated
at `particleCount * 3` floats and the base vertices of the icosphere (with
`meshFloats` position floats) are captured once. -/
def initEngine (config : VisualizerConfig) (meshFloats : ℕ) : EngineState :=
  { config := config
    particlePositionsLen := config.particleCount * 3
    particleVelocitiesLen := config.particleCount * 3
    originalVerticesLen := meshFloats }

/-- `updateConfig` (src/VisualizerEngine.ts:549-551): only
`this.config = { ...this.config, ...newConfig }`; no buffer is touched. -/
def updateConfig (s : EngineState) (newConfig : PartialVisualizerConfig) :
    EngineState :=
  { s with config := mergeConfig s.config newConfig }

/-- `getParticleCount` (src/VisualizerEngine.ts:591-593): reads
`this.config.particleCount`. -/
def getParticleCount (s : EngineState) : ℕ := s.config.particleCount

end VisualizerEngine

namespace VisualizerEngine

/-- A teleported particle sits at distance exactly `3 + rRad` from the
origin (spherical coordinates preserve the radius). -/
lemma updateParticle_teleport_dist (overallLevel deltaTime : ℝ)
    (r : ParticleRand) (p : Particle) (h0 : 0 ≤ r.rRad)
    (hout : 8 < dist3 (integratedPos overallLevel deltaTime r p)) :
    dist3 (pos (updateParticle overallLevel deltaTime r p)) = 3 + r.rRad := by
  unfold updateParticle
  rw [if_pos hout]
  unfold dist3 pos
  dsimp only
  set R := 3 + r.rRad with hR
  set theta := r.rTheta * Real.pi * 2
  set phi := Real.arccos (2 * r.rPhi - 1)
  have h1 : Real.sin theta ^ 2 + Real.cos theta ^ 2 = 1 :=
    Real.sin_sq_add_cos_sq theta
  have h2 : Real.sin phi ^ 2 + Real.cos phi ^ 2 = 1 :=
    Real.sin_sq_add_cos_sq phi
  have hsq : R * Real.sin phi * Real.cos theta * (R * Real.sin phi * Real.cos theta) +
      R * Real.sin phi * Real.sin theta * (R * Real.sin phi * Real.sin theta) +
      R * Real.cos phi * (R * Real.cos phi) = R ^ 2 := by
    linear_combination (R ^ 2 * Real.sin phi ^ 2) * h1 + R ^ 2 * h2
  rw [hsq, Real.sqrt_sq (by rw [hR]; linarith)]

/-- The boundary branch never writes the velocity buffer: both branches
keep the jittered-and-damped velocity. -/
lemma updateParticle_vel (overallLevel deltaTime : ℝ)
    (r : ParticleRand) (p : Particle) :
    vel (updateParticle overallLevel deltaTime r p) =
      newVelocity overallLevel deltaTime r p := by
  simp only [updateParticle, vel]
  split_ifs <;> rfl

/-- A particle that is not out of bounds keeps its integrated position. -/
lemma updateParticle_stay (overallLevel deltaTime : ℝ)
    (r : ParticleRand) (p : Particle)
    (hin : ¬ 8 < dist3 (integratedPos overallLevel deltaTime r p)) :
    pos (updateParticle overallLevel deltaTime r p) =
      integratedPos overallLevel deltaTime r p := by
  unfold updateParticle
  rw [if_neg hin]
  rfl

end VisualizerEngine

/-- A `getD`-read of a frame whose samples lie in `[0,255]` lies in
`[0,255]` (out-of-range reads give the default 0). -/
lemma getD_bounds (data : List ℚ) (hbound : ∀ x ∈ data, 0 ≤ x ∧ x ≤ 255)
    (i : ℕ) : 0 ≤ data.getD i 0 ∧ data.getD i 0 ≤ 255 := by
  by_cases h : i < data.length
  · rw [List.getD_eq_getElem data 0 h]
    exact hbound _ (data.getElem_mem h)
  · rw [List.getD_eq_default data 0 (by omega)]
    norm_num

/-- `evaluateLODChange` keeps the history and moves the index by the
hysteresis rule, written with `m`, the mean of the last 30 samples. -/
lemma evaluateLODChange_eq (s : PerformanceLOD.State)
    (h30 : 30 ≤ s.performanceHistory.length) (m : ℚ)
    (hm : m = (s.performanceHistory.drop (s.performanceHistory.length - 30)).sum / 30) :
    PerformanceLOD.evaluateLODChange s =
      { s with currentIndex :=
          if m < (PerformanceLOD.currentLOD s).targetFPS - 5 ∧ 0 < s.currentIndex then
            s.currentIndex - 1
          else if (PerformanceLOD.currentLOD s).targetFPS + 3 < m ∧ s.currentIndex < 4 then
            s.currentIndex + 1
          else s.currentIndex } := by
  have hlen : (s.performanceHistory.drop (s.performanceHistory.length - 30)).length = 30 := by
    rw [List.length_drop]
    omega
  simp only [PerformanceLOD.evaluateLODChange, hlen]
  rw [show ((30 : ℕ) : ℚ) = (30 : ℚ) by norm_num, ← hm]
  have hlevels : PerformanceLOD.lodLevels.length - 1 = 4 := by
    simp [PerformanceLOD.lodLevels]
  rw [hlevels]

/-- C6: the band-level computation is a total function (the embedding is a
plain `def`, so it can never raise); a range with `end ≤ start` yields 0,
and a band lying entirely beyond the frame length also degrades to 0. -/
theorem calculateBandLevel_total_degenerate (data : List ℚ) (start stop : ℕ) :
    (stop ≤ start → AudioAnalyzer.calculateBandLevel data start stop = 0) ∧
    (data.length ≤ start → AudioAnalyzer.calculateBandLevel data start stop = 0) := by
  constructor
  · intro h
    unfold AudioAnalyzer.calculateBandLevel
    rw [if_neg (by omega)]
  · intro h
    unfold AudioAnalyzer.calculateBandLevel
    have hdrop : ((List.range (min stop data.length)).drop start) = [] :=
      List.drop_eq_nil_of_le (by simpa using by omega)
    rw [hdrop]
    simp

/-- Witness for C6 at concrete inputs. -/
theorem calculateBandLevel_total_degenerate_witness :
    AudioAnalyzer.calculateBandLevel [1, 2, 3] 5 2 = 0 ∧
    AudioAnalyzer.calculateBandLevel [1, 2, 3] 7 9 = 0 :=
  ⟨(calculateBandLevel_total_degenerate [1, 2, 3] 5 2).1 (by norm_num),
   (calculateBandLevel_total_degenerate [1, 2, 3] 7 9).2 (by norm_num)⟩

/-- C7: the overall level is the RMS over all samples,
`sqrt(mean(sample_i^2)) / 255` (stated here in real arithmetic, sample by
sample); on the frame `[255,0,0,0]` (with bands `[0,1)`, `[1,2)`, `[2,4)`)
it differs from the mean of the three band values; and on an all-zero frame
of any length it is exactly 0 (no division-by-zero failure). -/
theorem calculateOverallLevel_rms :
    (∀ data : List ℚ, AudioAnalyzer.calculateOverallLevel data =
      Real.sqrt ((data.map (fun x => ((x : ℝ)) ^ 2)).sum / (data.length : ℝ)) / 255) ∧
    AudioAnalyzer.calculateOverallLevel [255, 0, 0, 0] ≠
      ((AudioAnalyzer.calculateBandLevel [255, 0, 0, 0] 0 1 +
        AudioAnalyzer.calculateBandLevel [255, 0, 0, 0] 1 2 +
        AudioAnalyzer.calculateBandLevel [255, 0, 0, 0] 2 4 : ℚ) : ℝ) / 3 ∧
    ∀ n : ℕ, AudioAnalyzer.calculateOverallLevel (List.replicate n 0) = 0 := by
  have hcast : ∀ data : List ℚ,
      (((data.map (fun x => x * x)).sum : ℚ) : ℝ) =
        (data.map (fun x => ((x : ℝ)) ^ 2)).sum := by
    intro data
    induction data with
    | nil => simp
    | cons a l ih => simp [ih, sq]
  refine ⟨?_, ?_, ?_⟩
  · intro data
    unfold AudioAnalyzer.calculateOverallLevel AudioAnalyzer.overallMeanSquare
    rw [Rat.cast_div, hcast]
    norm_num
  · have hms : AudioAnalyzer.overallMeanSquare [255, 0, 0, 0] = 65025 / 4 := by
      norm_num [AudioAnalyzer.overallMeanSquare]
    have hov : AudioAnalyzer.calculateOverallLevel [255, 0, 0, 0] = 1 / 2 := by
      unfold AudioAnalyzer.calculateOverallLevel
      rw [hms]
      have h1 : (((65025 / 4 : ℚ) : ℝ)) = (255 / 2 : ℝ) ^ 2 := by norm_num
      rw [h1, Real.sqrt_sq (by norm_num)]
      norm_num
    have hb : AudioAnalyzer.calculateBandLevel [255, 0, 0, 0] 0 1 = 1 := by
      norm_num [AudioAnalyzer.calculateBandLevel, List.range_succ]
    have hm : AudioAnalyzer.calculateBandLevel [255, 0, 0, 0] 1 2 = 0 := by
      norm_num [AudioAnalyzer.calculateBandLevel, List.range_succ]
    have ht : AudioAnalyzer.calculateBandLevel [255, 0, 0, 0] 2 4 = 0 := by
      norm_num [AudioAnalyzer.calculateBandLevel, List.range_succ]
    rw [hov, hb, hm, ht]
    norm_num
  · intro n
    have hz : AudioAnalyzer.overallMeanSquare (List.replicate n (0 : ℚ)) = 0 := by
      unfold AudioAnalyzer.overallMeanSquare
      rw [List.map_replicate]
      simp
    unfold AudioAnalyzer.calculateOverallLevel
    rw [hz]
    simp

/-- C8: with all samples in `[0,255]`, every band value lies in `[0,1]` and
the overall level lies in `[0,1]`; moreover the band value is monotone in
the samples: raising the single sample at an index `j` inside the band index
range never decreases the value of that band. -/
theorem bandLevel_bounds_monotone (data : List ℚ) (start stop : ℕ)
    (hbound : ∀ x ∈ data, 0 ≤ x ∧ x ≤ 255) :
    (0 ≤ AudioAnalyzer.calculateBandLevel data start stop ∧
      AudioAnalyzer.calculateBandLevel data start stop ≤ 1) ∧
    (0 ≤ AudioAnalyzer.calculateOverallLevel data ∧
      AudioAnalyzer.calculateOverallLevel data ≤ 1) ∧
    (∀ j v, data.getD j 0 ≤ v → start ≤ j → j < stop →
      AudioAnalyzer.calculateBandLevel data start stop ≤
        AudioAnalyzer.calculateBandLevel (data.set j v) start stop) := by
  refine ⟨?_, ?_, ?_⟩
  · unfold AudioAnalyzer.calculateBandLevel
    by_cases hlt : start < stop
    · rw [if_pos hlt]
      have hc : (0 : ℚ) < (stop : ℚ) - (start : ℚ) := by
        have : (start : ℚ) < (stop : ℚ) := by exact_mod_cast hlt
        linarith
      set idx := (List.range (min stop data.length)).drop start with hidx
      have hsum0 : (0 : ℚ) ≤ (idx.map (fun i => data.getD i 0)).sum := by
        apply List.sum_nonneg
        intro x hx
        obtain ⟨i, _, rfl⟩ := List.mem_map.mp hx
        exact (getD_bounds data hbound i).1
      have hsumU : (idx.map (fun i => data.getD i 0)).sum ≤
          ((stop : ℚ) - (start : ℚ)) * 255 := by
        have h1 : (idx.map (fun i => data.getD i 0)).sum ≤
            (idx.map (fun i => data.getD i 0)).length • (255 : ℚ) := by
          apply List.sum_le_card_nsmul
          intro x hx
          obtain ⟨i, _, rfl⟩ := List.mem_map.mp hx
          exact (getD_bounds data hbound i).2
        have hlen : (idx.map (fun i => data.getD i 0)).length ≤ stop - start := by
          simp only [List.length_map, hidx, List.length_drop, List.length_range]
          omega
        have h2 : ((idx.map (fun i => data.getD i 0)).length • (255 : ℚ)) ≤
            ((stop : ℚ) - (start : ℚ)) * 255 := by
          rw [nsmul_eq_mul]
          have : ((idx.map (fun i => data.getD i 0)).length : ℚ) ≤
              (stop : ℚ) - (start : ℚ) := by
            have := hlen
            have hcast : (((stop - start : ℕ)) : ℚ) = (stop : ℚ) - (start : ℚ) := by
              have : start ≤ stop := by omega
              push_cast [this]
              ring
            rw [← hcast]
            exact_mod_cast hlen
          nlinarith
        linarith
      constructor
      · positivity
      · rw [div_le_one (by norm_num), div_le_iff₀ hc]
        linarith
    · rw [if_neg hlt]
      norm_num
  · constructor
    · unfold AudioAnalyzer.calculateOverallLevel
      positivity
    · unfold AudioAnalyzer.calculateOverallLevel
      have hms : AudioAnalyzer.overallMeanSquare data ≤ 65025 := by
        unfold AudioAnalyzer.overallMeanSquare
        rcases Nat.eq_zero_or_pos data.length with hz | hpos
        · rw [hz]
          norm_num
        · have hsum : (data.map (fun x => x * x)).sum ≤
              (data.map (fun x => x * x)).length • (65025 : ℚ) := by
            apply List.sum_le_card_nsmul
            intro x hx
            obtain ⟨y, hy, rfl⟩ := List.mem_map.mp hx
            obtain ⟨h0, h255⟩ := hbound y hy
            nlinarith
          rw [List.length_map, nsmul_eq_mul] at hsum
          rw [div_le_iff₀ (by exact_mod_cast hpos)]
          linarith
      have hsqrt : Real.sqrt ((AudioAnalyzer.overallMeanSquare data : ℚ) : ℝ) ≤ 255 := by
        have h1 : (((AudioAnalyzer.overallMeanSquare data : ℚ)) : ℝ) ≤ ((255 : ℝ)) ^ 2 := by
          have : (((AudioAnalyzer.overallMeanSquare data : ℚ)) : ℝ) ≤ ((65025 : ℚ) : ℝ) := by
            exact_mod_cast hms
          norm_num at this ⊢
          linarith
        calc Real.sqrt ((AudioAnalyzer.overallMeanSquare data : ℚ) : ℝ) ≤
              Real.sqrt ((255 : ℝ) ^ 2) := Real.sqrt_le_sqrt h1
          _ = 255 := Real.sqrt_sq (by norm_num)
      rw [div_le_one (by norm_num)]
      exact hsqrt
  · intro j v hjv hsj hjs
    unfold AudioAnalyzer.calculateBandLevel
    have hlt : start < stop := by omega
    rw [List.length_set, if_pos hlt, if_pos hlt]
    have hc : (0 : ℚ) < (stop : ℚ) - (start : ℚ) := by
      have : (start : ℚ) < (stop : ℚ) := by exact_mod_cast hlt
      linarith
    gcongr ?_ / _ / _
    apply List.sum_le_sum
    intro i _
    by_cases hij : i = j
    · subst hij
      by_cases hlen : i < data.length
      · have : (data.set i v).getD i 0 = v := by
          rw [List.getD_eq_getElem _ 0 (by rw [List.length_set]; exact hlen)]
          rw [List.getElem_set]
          simp
        rw [this]
        exact hjv
      · rw [List.set_eq_of_length_le (by omega)]
    · have : (data.set j v).getD i 0 = data.getD i 0 := by
        rw [List.getD_eq_getElem?_getD, List.getD_eq_getElem?_getD,
          List.getElem?_set, if_neg (by omega)]
      rw [this]

/-- Witness for C8 at a concrete frame and band range. -/
theorem bandLevel_bounds_monotone_witness :
    AudioAnalyzer.calculateBandLevel [10, 20] 0 2 ≤
      AudioAnalyzer.calculateBandLevel ([10, 20].set 1 30) 0 2 :=
  (bandLevel_bounds_monotone [10, 20] 0 2 (by norm_num)).2.2 1 30
    (by norm_num [List.getD]) (by norm_num) (by norm_num)

/-- C1: each `updatePerformance` call appends the fps sample (evicting the
oldest sample beyond capacity 60); a transition is evaluated only once the
history holds at least 30 samples; then, with `m` the mean fps of the most
recent 30 samples, the index moves exactly one step down iff
`m < targetFPS - 5` and the tier is not the lowest, exactly one step up iff
`m > targetFPS + 3` and the tier is not the highest, and otherwise stays;
in every case at most one tier step occurs. -/
theorem updatePerformance_spec (s : PerformanceLOD.State) (fps : ℚ)
    (hidx : s.currentIndex < 5) (hist : List ℚ)
    (hh : hist = if 60 < (s.performanceHistory ++ [fps]).length then
      (s.performanceHistory ++ [fps]).drop 1 else s.performanceHistory ++ [fps])
    (m : ℚ) (hm : m = (hist.drop (hist.length - 30)).sum / 30) :
    (PerformanceLOD.updatePerformance s fps).performanceHistory = hist ∧
    (hist.length < 30 →
      (PerformanceLOD.updatePerformance s fps).currentIndex = s.currentIndex) ∧
    (30 ≤ hist.length →
      (((PerformanceLOD.updatePerformance s fps).currentIndex + 1 = s.currentIndex) ↔
        (m < (PerformanceLOD.currentLOD s).targetFPS - 5 ∧ 0 < s.currentIndex)) ∧
      (((PerformanceLOD.updatePerformance s fps).currentIndex = s.currentIndex + 1) ↔
        ((PerformanceLOD.currentLOD s).targetFPS + 3 < m ∧ s.currentIndex < 4)) ∧
      (((PerformanceLOD.updatePerformance s fps).currentIndex = s.currentIndex) ↔
        (¬(m < (PerformanceLOD.currentLOD s).targetFPS - 5 ∧ 0 < s.currentIndex) ∧
         ¬((PerformanceLOD.currentLOD s).targetFPS + 3 < m ∧ s.currentIndex < 4)))) ∧
    (s.currentIndex ≤ (PerformanceLOD.updatePerformance s fps).currentIndex + 1 ∧
      (PerformanceLOD.updatePerformance s fps).currentIndex ≤ s.currentIndex + 1) := by
  have hup : PerformanceLOD.updatePerformance s fps =
      if 30 ≤ hist.length then
        PerformanceLOD.evaluateLODChange ⟨s.currentIndex, hist⟩
      else ⟨s.currentIndex, hist⟩ := by
    simp only [PerformanceLOD.updatePerformance]
    rw [← hh]
  by_cases h30 : 30 ≤ hist.length
  · rw [hup, if_pos h30]
    have hcl : PerformanceLOD.currentLOD (⟨s.currentIndex, hist⟩ : PerformanceLOD.State) =
        PerformanceLOD.currentLOD s := rfl
    rw [evaluateLODChange_eq ⟨s.currentIndex, hist⟩ h30 m (by simpa using hm)]
    rw [hcl]
    set t := (PerformanceLOD.currentLOD s).targetFPS with ht
    by_cases hd : m < t - 5 ∧ 0 < s.currentIndex
    · obtain ⟨hd1, hd2⟩ := hd
      rw [if_pos ⟨hd1, hd2⟩]
      dsimp only
      have hnu : ¬(t + 3 < m ∧ s.currentIndex < 4) := by
        rintro ⟨h1, -⟩
        linarith
      refine ⟨rfl, fun h => by omega, fun _ => ⟨?_, ?_, ?_⟩, by omega⟩
      · exact ⟨fun _ => ⟨hd1, hd2⟩, fun _ => by omega⟩
      · constructor
        · intro h
          exfalso
          omega
        · intro h
          exact absurd h hnu
      · constructor
        · intro h
          exfalso
          omega
        · rintro ⟨hnd, -⟩
          exact absurd ⟨hd1, hd2⟩ hnd
    · rw [if_neg hd]
      by_cases hu : t + 3 < m ∧ s.currentIndex < 4
      · obtain ⟨hu1, hu2⟩ := hu
        rw [if_pos ⟨hu1, hu2⟩]
        dsimp only
        refine ⟨rfl, fun h => by omega, fun _ => ⟨?_, ?_, ?_⟩, by omega⟩
        · constructor
          · intro h
            exfalso
            omega
          · intro h
            exact absurd h hd
        · exact ⟨fun _ => ⟨hu1, hu2⟩, fun _ => rfl⟩
        · constructor
          · intro h
            exfalso
            omega
          · rintro ⟨-, hnu⟩
            exact absurd ⟨hu1, hu2⟩ hnu
      · rw [if_neg hu]
        dsimp only
        refine ⟨rfl, fun _ => rfl, fun _ => ⟨?_, ?_, ?_⟩, by omega⟩
        · constructor
          · intro h
            exfalso
            omega
          · intro h
            exact absurd h hd
        · constructor
          · intro h
            exfalso
            omega
          · intro h
            exact absurd h hu
        · exact ⟨fun _ => ⟨hd, hu⟩, fun _ => rfl⟩
  · rw [hup, if_neg h30]
    exact ⟨rfl, fun _ => rfl, fun h => absurd h h30, by dsimp only; omega⟩

/-- Witness for C1: a Medium-tier controller holding 29 samples of 60 fps
receives one more 60 fps sample and steps up to High. -/
theorem updatePerformance_spec_witness :
    (PerformanceLOD.updatePerformance ⟨2, List.replicate 29 60⟩ 60).currentIndex = 2 + 1 :=
  (((updatePerformance_spec ⟨2, List.replicate 29 60⟩ 60 (by norm_num)
      (List.replicate 29 60 ++ [60]) (by norm_num)
      60 (by norm_num [List.sum_replicate])).2.2.1
    (by norm_num)).2.1).mpr
    (by norm_num [PerformanceLOD.currentLOD, PerformanceLOD.lodLevels])

/-- A history of `L ≥ 30` copies of a dead-band fps value `c` produces mean
`c` and hence no tier transition. -/

lemma evaluateLODChange_replicate (i L : ℕ) (c : ℚ) (h30 : 30 ≤ L)
    (hdown : ¬(c < (PerformanceLOD.currentLOD ⟨i, []⟩).targetFPS - 5))
    (hup : ¬((PerformanceLOD.currentLOD ⟨i, []⟩).targetFPS + 3 < c)) :
    PerformanceLOD.evaluateLODChange ⟨i, List.replicate L c⟩ =
      ⟨i, List.replicate L c⟩ := by
  have hm : c = ((List.replicate L c).drop ((List.replicate L c).length - 30)).sum / 30 := by
    rw [List.length_replicate, List.drop_replicate, List.sum_replicate]
    have h3 : L - (L - 30) = 30 := by omega
    rw [h3, nsmul_eq_mul]
    norm_num
  rw [evaluateLODChange_eq ⟨i, List.replicate L c⟩ (by simpa using h30) c hm]
  have hcl : PerformanceLOD.currentLOD (⟨i, List.replicate L c⟩ : PerformanceLOD.State) =
      PerformanceLOD.currentLOD ⟨i, []⟩ := rfl
  rw [hcl, if_neg (fun h => hdown h.1), if_neg (fun h => hup h.1)]

/-- Feeding a constant dead-band fps value `c` keeps the tier index fixed
and leaves the history as copies of `c` (capped at capacity 60). -/
lemma constant_feed (i : ℕ) (c : ℚ)
    (hdown : ¬(c < (PerformanceLOD.currentLOD ⟨i, []⟩).targetFPS - 5))
    (hup : ¬((PerformanceLOD.currentLOD ⟨i, []⟩).targetFPS + 3 < c)) :
    ∀ k : ℕ, (fun st => PerformanceLOD.updatePerformance st c)^[k] ⟨i, []⟩ =
      ⟨i, List.replicate (min k 60) c⟩ := by
  intro k
  induction k with
  | zero => simp
  | succ k ih =>
    rw [Function.iterate_succ_apply', ih]
    simp only [PerformanceLOD.updatePerformance]
    by_cases hk : k < 60
    · have hmin : min k 60 = k := by omega
      have hmin' : min (k + 1) 60 = k + 1 := by omega
      rw [hmin, hmin']
      have happend : List.replicate k c ++ [c] = List.replicate (k + 1) c :=
        (List.replicate_succ' k c).symm
      rw [happend]
      have hhist : (if 60 < (List.replicate (k + 1) c).length then
          (List.replicate (k + 1) c).drop 1 else List.replicate (k + 1) c) =
          List.replicate (k + 1) c := by
        rw [List.length_replicate, if_neg (by omega)]
      rw [hhist, List.length_replicate]
      by_cases h30 : 30 ≤ k + 1
      · rw [if_pos h30]
        exact evaluateLODChange_replicate i (k + 1) c h30 hdown hup
      · rw [if_neg h30]
    · have hmin : min k 60 = 60 := by omega
      have hmin' : min (k + 1) 60 = 60 := by omega
      rw [hmin, hmin']
      have happend : List.replicate 60 c ++ [c] = List.replicate (60 + 1) c :=
        (List.replicate_succ' 60 c).symm
      rw [happend]
      have hhist : (if 60 < (List.replicate (60 + 1) c).length then
          (List.replicate (60 + 1) c).drop 1 else List.replicate (60 + 1) c) =
          List.replicate 60 c := by
        rw [List.length_replicate, if_pos (by omega), List.drop_replicate]
      rw [hhist, List.length_replicate, if_pos (by omega)]
      exact evaluateLODChange_replicate i 60 c (by omega) hdown hup

/-- C4: starting from an empty history in any of the five tiers, feeding
the constant fps stream `targetFPS - 2` (inside the hysteresis dead band)
for 200 consecutive calls never changes the tier index. -/
theorem deadBand_no_tier_change (i : ℕ) (_hi : i < 5) (n : ℕ) (_hn : n ≤ 200) :
    ((fun st => PerformanceLOD.updatePerformance st
        ((PerformanceLOD.currentLOD ⟨i, []⟩).targetFPS - 2))^[n]
      ⟨i, []⟩).currentIndex = i := by
  rw [constant_feed i ((PerformanceLOD.currentLOD ⟨i, []⟩).targetFPS - 2)
    (by intro h; linarith) (by intro h; linarith) n]

/-- Witness for C4: the Medium tier fed 200 samples of fps 53. -/
theorem deadBand_no_tier_change_witness :
    ((fun st => PerformanceLOD.updatePerformance st
        ((PerformanceLOD.currentLOD ⟨2, []⟩).targetFPS - 2))^[200]
      ⟨2, []⟩).currentIndex = 2 :=
  deadBand_no_tier_change 2 (by norm_num) 200 (by norm_num)

/-- C9: the profiler classification is a first-match decision table: a
device with `(mobile ∧ cores ≤ 2 ∧ memory ≤ 2GB) ∨ gpuTier = low ∨
maxTextureSize < 4096` gets the lowest tier; otherwise a mobile device gets
the second-lowest tier, whose pixel ratio is 2 exactly on high-DPI screens
and 1 otherwise; otherwise `gpuTier = high` gets the highest tier; any
other device gets the fixed middle tier.  The four tiers are strictly
ordered by particle count (200 < 500 < 1000 < 2000). -/
theorem determineQualitySettings_decision_table
    (isMobile isTablet hasWebGL2 hasHighDPI : Bool) (maxTextureSize : ℕ)
    (gpuTier : DeviceCapabilities.GpuTier) (memoryGB devicePixelRatio : ℚ)
    (cores : ℕ) :
    DeviceCapabilities.determineQualitySettings
        (DeviceCapabilities.detectDeviceInfo isMobile isTablet hasWebGL2
          hasHighDPI maxTextureSize gpuTier memoryGB cores) devicePixelRatio =
      (if (isMobile = true ∧ cores ≤ 2 ∧ memoryGB ≤ 2) ∨
          gpuTier = DeviceCapabilities.GpuTier.low ∨ maxTextureSize < 4096 then
        DeviceCapabilities.lowEndSettings
      else if isMobile = true then
        DeviceCapabilities.mobileSettings hasHighDPI
      else if gpuTier = DeviceCapabilities.GpuTier.high then
        DeviceCapabilities.highSettings devicePixelRatio
      else DeviceCapabilities.mediumSettings devicePixelRatio) ∧
    (DeviceCapabilities.mobileSettings hasHighDPI).pixelRatio =
      (if hasHighDPI then 2 else 1) ∧
    DeviceCapabilities.lowEndSettings.particleCount <
      (DeviceCapabilities.mobileSettings hasHighDPI).particleCount ∧
    (DeviceCapabilities.mobileSettings hasHighDPI).particleCount <
      (DeviceCapabilities.mediumSettings devicePixelRatio).particleCount ∧
    (DeviceCapabilities.mediumSettings devicePixelRatio).particleCount <
      (DeviceCapabilities.highSettings devicePixelRatio).particleCount := by
  refine ⟨?_, rfl, by norm_num [DeviceCapabilities.lowEndSettings,
    DeviceCapabilities.mobileSettings], by norm_num
    [DeviceCapabilities.mobileSettings, DeviceCapabilities.mediumSettings],
    by norm_num [DeviceCapabilities.mediumSettings,
    DeviceCapabilities.highSettings]⟩
  unfold DeviceCapabilities.determineQualitySettings
    DeviceCapabilities.detectDeviceInfo DeviceCapabilities.computeIsLowEnd
  dsimp only
  have hcond : ((isMobile && decide (cores ≤ 2) && decide (memoryGB ≤ 2)) ||
      decide (gpuTier = DeviceCapabilities.GpuTier.low) ||
      decide (maxTextureSize < 4096)) = true ↔
      ((isMobile = true ∧ cores ≤ 2 ∧ memoryGB ≤ 2) ∨
        gpuTier = DeviceCapabilities.GpuTier.low ∨ maxTextureSize < 4096) := by
    simp [Bool.or_eq_true, Bool.and_eq_true, and_assoc, or_assoc]
  by_cases h : (isMobile = true ∧ cores ≤ 2 ∧ memoryGB ≤ 2) ∨
      gpuTier = DeviceCapabilities.GpuTier.low ∨ maxTextureSize < 4096
  · rw [if_pos (hcond.mpr h), if_pos h]
  · rw [if_neg (fun hb => h (hcond.mp hb)), if_neg h]

/-- C2 counterexample: on a mesh of 200 vertices, the vertex of index 1
(base position `(1,0,0)`, silence in all bands, overall level 1, morphing
intensity 1, elapsed time 0) is written by the code to
`1 + sin(0.1)·0.1` times its base, not to the claimed
`1 + sin(u·10)·0.1 = 1 + sin(0.05)·0.1` times its base. -/
theorem morph_ripple_counterexample :
    VisualizerEngine.morphVertex 0 0 0 1 1 0 1 200 (1, 0, 0) ≠
      (1 * VisualizerEngine.morphDisplacementClaim 0 0 0 1 1 0 1 200,
       0 * VisualizerEngine.morphDisplacementClaim 0 0 0 1 1 0 1 200,
       0 * VisualizerEngine.morphDisplacementClaim 0 0 0 1 1 0 1 200) := by
  intro h
  have h1 := congrArg Prod.fst h
  simp only [VisualizerEngine.morphVertex, VisualizerEngine.morphDisplacement,
    VisualizerEngine.morphDisplacementClaim] at h1
  norm_num at h1
  have hlt : Real.sin (1 / 20) < Real.sin (1 / 10) := by
    have hpi := Real.pi_gt_three
    apply Real.strictMonoOn_sin
    · constructor <;> norm_num <;> linarith
    · constructor <;> norm_num <;> linarith
    · norm_num
  linarith

/-- C2 (amended): for every vertex with base position `b` and normalized
index `u = vertexIndex/totalVertices`, the update writes
`newPos = b * displacement` (radial scaling) with
`displacement = 1 + regionTerm + sin(2*elapsed + vertexIndex*0.1) * overall
* 0.1` — the ripple phase uses the raw vertex index times 0.1, not `u*10`
— where `regionTerm` is `bass*mi*0.5` for `u < 0.33`, `mid*mi*0.3` for
`0.33 ≤ u < 0.66`, `treble*mi*0.4` for `u ≥ 0.66` (exactly one band per
vertex, via the if-chain). -/
theorem morphVertex_radial_formula (bass mid treble overall mi time : ℝ)
    (vi total : ℕ) (basePos : ℝ × ℝ × ℝ) :
    VisualizerEngine.morphVertex bass mid treble overall mi time vi total basePos =
      (basePos.1 * (1 + (if ((vi : ℝ) / (total : ℝ)) < 0.33 then bass * mi * 0.5
          else if ((vi : ℝ) / (total : ℝ)) < 0.66 then mid * mi * 0.3
          else treble * mi * 0.4) +
        Real.sin (2 * time + (vi : ℝ) * 0.1) * overall * 0.1),
       basePos.2.1 * (1 + (if ((vi : ℝ) / (total : ℝ)) < 0.33 then bass * mi * 0.5
          else if ((vi : ℝ) / (total : ℝ)) < 0.66 then mid * mi * 0.3
          else treble * mi * 0.4) +
        Real.sin (2 * time + (vi : ℝ) * 0.1) * overall * 0.1),
       basePos.2.2 * (1 + (if ((vi : ℝ) / (total : ℝ)) < 0.33 then bass * mi * 0.5
          else if ((vi : ℝ) / (total : ℝ)) < 0.66 then mid * mi * 0.3
          else treble * mi * 0.4) +
        Real.sin (2 * time + (vi : ℝ) * 0.1) * overall * 0.1)) := by
  simp only [VisualizerEngine.morphVertex, VisualizerEngine.morphDisplacement]
  rw [mul_comm time 2]
  split_ifs <;> simp only [Prod.mk.injEq]

/-- C3: a particle whose integrated position lies at distance `> 8` from
the origin is teleported to distance `3 + rRad ∈ [3,4)` (with `rRad` the
uniform draw in `[0,1)`), and the teleport does not touch the velocity,
which remains exactly the jittered-and-damped velocity; in particular a
particle placed at `(10,0,0)` (distance 10), at rest and in silence, ends
one update at distance in `[3,4)`. -/
theorem particle_teleport_spec (overallLevel deltaTime : ℝ)
    (r : VisualizerEngine.ParticleRand) (p : VisualizerEngine.Particle)
    (h0 : 0 ≤ r.rRad) (h1 : r.rRad < 1)
    (hout : 8 < VisualizerEngine.dist3
      (VisualizerEngine.integratedPos overallLevel deltaTime r p)) :
    (3 ≤ VisualizerEngine.dist3
        (VisualizerEngine.pos (VisualizerEngine.updateParticle overallLevel deltaTime r p)) ∧
      VisualizerEngine.dist3
        (VisualizerEngine.pos (VisualizerEngine.updateParticle overallLevel deltaTime r p)) < 4) ∧
    VisualizerEngine.vel (VisualizerEngine.updateParticle overallLevel deltaTime r p) =
      VisualizerEngine.newVelocity overallLevel deltaTime r p ∧
    (VisualizerEngine.dist3 (VisualizerEngine.integratedPos 0 0 r ⟨10, 0, 0, 0, 0, 0⟩) = 10 ∧
      3 ≤ VisualizerEngine.dist3
        (VisualizerEngine.pos (VisualizerEngine.updateParticle 0 0 r ⟨10, 0, 0, 0, 0, 0⟩)) ∧
      VisualizerEngine.dist3
        (VisualizerEngine.pos (VisualizerEngine.updateParticle 0 0 r ⟨10, 0, 0, 0, 0, 0⟩)) < 4) := by
  have hd10 : VisualizerEngine.dist3
      (VisualizerEngine.integratedPos 0 0 r ⟨10, 0, 0, 0, 0, 0⟩) = 10 := by
    unfold VisualizerEngine.dist3 VisualizerEngine.integratedPos
      VisualizerEngine.newVelocity
    norm_num
    rw [show (100 : ℝ) = 10 ^ 2 by norm_num, Real.sqrt_sq (by norm_num)]
  refine ⟨?_, ?_, hd10, ?_, ?_⟩
  · rw [VisualizerEngine.updateParticle_teleport_dist overallLevel deltaTime r p h0 hout]
    constructor <;> linarith
  · exact VisualizerEngine.updateParticle_vel overallLevel deltaTime r p
  · rw [VisualizerEngine.updateParticle_teleport_dist 0 0 r ⟨10, 0, 0, 0, 0, 0⟩ h0 (by rw [hd10]; norm_num)]
    linarith
  · rw [VisualizerEngine.updateParticle_teleport_dist 0 0 r ⟨10, 0, 0, 0, 0, 0⟩ h0 (by rw [hd10]; norm_num)]
    linarith

/-- Witness for C3: the all-zero random draw teleports the rest particle
at `(10,0,0)` into the shell `[3,4)`. -/
theorem particle_teleport_spec_witness :
    3 ≤ VisualizerEngine.dist3 (VisualizerEngine.pos
      (VisualizerEngine.updateParticle 0 0 ⟨0, 0, 0, 0, 0, 0⟩ ⟨10, 0, 0, 0, 0, 0⟩)) ∧
    VisualizerEngine.dist3 (VisualizerEngine.pos
      (VisualizerEngine.updateParticle 0 0 ⟨0, 0, 0, 0, 0, 0⟩ ⟨10, 0, 0, 0, 0, 0⟩)) < 4 :=
  have hd : 8 < VisualizerEngine.dist3
      (VisualizerEngine.integratedPos 0 0 ⟨0, 0, 0, 0, 0, 0⟩ ⟨10, 0, 0, 0, 0, 0⟩) := by
    unfold VisualizerEngine.dist3 VisualizerEngine.integratedPos
      VisualizerEngine.newVelocity
    norm_num
    rw [show (100 : ℝ) = 10 ^ 2 by norm_num, Real.sqrt_sq (by norm_num)]
    norm_num
  (particle_teleport_spec 0 0 ⟨0, 0, 0, 0, 0, 0⟩ ⟨10, 0, 0, 0, 0, 0⟩
    (by norm_num) (by norm_num) hd).1

/-- C10: after a completed particle-update pass, every particle in the
output sits at radial distance at most 8 from the origin; particles whose
integrated position exceeded distance 8 were repositioned (within the same
pass) to a radius strictly below 4, and all other particles kept their
integrated position, which already satisfies the bound. -/
theorem particle_radius_invariant (overallLevel deltaTime : ℝ)
    (particles : List (VisualizerEngine.Particle × VisualizerEngine.ParticleRand))
    (hrand : ∀ pr ∈ particles, 0 ≤ pr.2.rRad ∧ pr.2.rRad < 1) :
    (∀ q ∈ VisualizerEngine.updateParticleSystem overallLevel deltaTime particles,
      VisualizerEngine.dist3 (VisualizerEngine.pos q) ≤ 8) ∧
    (∀ pr ∈ particles,
      (8 < VisualizerEngine.dist3
          (VisualizerEngine.integratedPos overallLevel deltaTime pr.2 pr.1) →
        VisualizerEngine.dist3 (VisualizerEngine.pos
          (VisualizerEngine.updateParticle overallLevel deltaTime pr.2 pr.1)) < 4) ∧
      (VisualizerEngine.dist3
          (VisualizerEngine.integratedPos overallLevel deltaTime pr.2 pr.1) ≤ 8 →
        VisualizerEngine.pos
          (VisualizerEngine.updateParticle overallLevel deltaTime pr.2 pr.1) =
          VisualizerEngine.integratedPos overallLevel deltaTime pr.2 pr.1)) := by
  have hone : ∀ pr ∈ particles,
      VisualizerEngine.dist3 (VisualizerEngine.pos
        (VisualizerEngine.updateParticle overallLevel deltaTime pr.2 pr.1)) ≤ 8 := by
    intro pr hpr
    obtain ⟨hr0, hr1⟩ := hrand pr hpr
    by_cases hout : 8 < VisualizerEngine.dist3
        (VisualizerEngine.integratedPos overallLevel deltaTime pr.2 pr.1)
    · rw [VisualizerEngine.updateParticle_teleport_dist overallLevel deltaTime
        pr.2 pr.1 hr0 hout]
      linarith
    · rw [VisualizerEngine.updateParticle_stay overallLevel deltaTime pr.2 pr.1 hout]
      linarith [not_lt.mp hout]
  refine ⟨?_, ?_⟩
  · intro q hq
    obtain ⟨pr, hpr, rfl⟩ := List.mem_map.mp hq
    exact hone pr hpr
  · intro pr hpr
    obtain ⟨hr0, hr1⟩ := hrand pr hpr
    refine ⟨fun hout => ?_, fun hin =>
      VisualizerEngine.updateParticle_stay overallLevel deltaTime pr.2 pr.1
        (not_lt.mpr hin)⟩
    rw [VisualizerEngine.updateParticle_teleport_dist overallLevel deltaTime
      pr.2 pr.1 hr0 hout]
    linarith

/-- Witness for C10: one out-of-bounds particle at `(10,0,0)` is pulled
back inside the distance-8 bound. -/
theorem particle_radius_invariant_witness :
    VisualizerEngine.dist3 (VisualizerEngine.pos
      (VisualizerEngine.updateParticle 0 0 ⟨0, 0, 0, 0, 0, 0⟩ ⟨10, 0, 0, 0, 0, 0⟩)) ≤ 8 :=
  (particle_radius_invariant 0 0 [(⟨10, 0, 0, 0, 0, 0⟩, ⟨0, 0, 0, 0, 0, 0⟩)]
    (by intro pr hpr; rw [List.mem_singleton] at hpr; subst hpr; norm_num)).1
    (VisualizerEngine.updateParticle 0 0 ⟨0, 0, 0, 0, 0, 0⟩ ⟨10, 0, 0, 0, 0, 0⟩)
    (by simp [VisualizerEngine.updateParticleSystem])

/-- C5 (code bug): applying `{particleCount := 50}` through `updateConfig`
to an engine built with 1000 particles makes `getParticleCount()` report
50, but the particle position/velocity buffers keep their old allocation of
`1000 * 3 = 3000` floats and the captured base vertices are not rebuilt:
the code never reallocates, contradicting the specified tier-application
contract. -/
theorem updateConfig_no_reallocation :
    VisualizerEngine.getParticleCount
        (VisualizerEngine.updateConfig
          (VisualizerEngine.initEngine ⟨32, 1000, 1, 4/5, false⟩ 2883)
          ⟨none, some 50, none, none, none⟩) = 50 ∧
    (VisualizerEngine.updateConfig
        (VisualizerEngine.initEngine ⟨32, 1000, 1, 4/5, false⟩ 2883)
        ⟨none, some 50, none, none, none⟩).particlePositionsLen = 3000 ∧
    (VisualizerEngine.updateConfig
        (VisualizerEngine.initEngine ⟨32, 1000, 1, 4/5, false⟩ 2883)
        ⟨none, some 50, none, none, none⟩).particlePositionsLen ≠ 50 * 3 ∧
    (VisualizerEngine.updateConfig
        (VisualizerEngine.initEngine ⟨32, 1000, 1, 4/5, false⟩ 2883)
        ⟨none, some 50, none, none, none⟩).particleVelocitiesLen ≠ 50 * 3 ∧
    (VisualizerEngine.updateConfig
        (VisualizerEngine.initEngine ⟨32, 1000, 1, 4/5, false⟩ 2883)
        ⟨none, some 50, none, none, none⟩).originalVerticesLen =
      (VisualizerEngine.initEngine ⟨32, 1000, 1, 4/5, false⟩ 2883).originalVerticesLen := by
  refine ⟨rfl, rfl, by norm_num [VisualizerEngine.updateConfig,
    VisualizerEngine.initEngine], by norm_num [VisualizerEngine.updateConfig,
    VisualizerEngine.initEngine], rfl⟩
